import Mathlib

/-!
Verification of the crypto-dashboard data-access layer.

The repository has two near-duplicate variants of the same dashboard:
`src/app.py` (Dash) and `src/dashboard.py` (Streamlit).  Both read one
relational table `cryptoprices`, enumerate the distinct trading pairs,
fetch a time-bounded pair-filtered row set (with a fallback between the
unquoted column `ma75` and the quoted physical column `"MA75"` aliased to
`ma75`), and reshape the result into KPI values, chart series and a tail
table.  This file embeds that logic shallowly and proves the behavioural
claims about it.
-/

namespace CryptoDash

/-- One row of the `cryptoprices` table (data model §3 of the design).
`time` is a timestamp measured in seconds since the epoch; `pair` is the
trading-pair identifier; every numeric price/indicator field is nullable,
modelled as `Option Rat`. -/
structure PriceRow where
  time : Int
  pair : String
  «open» : Option Rat
  high : Option Rat
  low : Option Rat
  close : Option Rat
  volume : Option Rat
  avg_volume_20 : Option Rat
  rsi14 : Option Rat
  macd : Option Rat
  macd_signal : Option Rat
  bb_upper : Option Rat
  bb_lower : Option Rat
  bb_basis : Option Rat
  ma50 : Option Rat
  ma75 : Option Rat
  ma100 : Option Rat
  ma200 : Option Rat
  sma10 : Option Rat
  sma50 : Option Rat
  vwma10 : Option Rat
  vwma20 : Option Rat
  vwma50 : Option Rat
deriving DecidableEq, Repr

/-- State of the database as seen by one fetch: the logical table contents,
whether the physical `ma75` column was created quoted mixed-case (`"MA75"`)
rather than case-folded lowercase (`ma75`), and whether the
connection/query machinery fails (network, auth, missing table, ...). -/
structure DB where
  table : List PriceRow
  ma75Quoted : Bool
  connFails : Bool
deriving DecidableEq, Repr

/-- Failure classes a query can raise: the column reference does not
resolve against the physical schema, or the connection/query fails
outright. Both surface to callers as the `DataUnavailable` condition. -/
inductive QErr where
  | columnNotFound
  | connectionError
deriving DecidableEq, Repr

/-- The two `ma75` column expressions tried by the fetch: the unquoted
logical name `ma75`, and the quoted physical column aliased back to the
logical name (`"MA75" AS ma75`). -/
inductive Ma75Expr where
  | unquoted
  | quotedAlias
deriving DecidableEq, Repr

/-- Postgres name resolution for the two expressions: the unquoted
reference resolves only when the column was case-folded to lowercase; the
quoted reference resolves only when the column was stored quoted. -/
def exprMatches (quoted : Bool) : Ma75Expr → Bool
  | Ma75Expr.unquoted => !quoted
  | Ma75Expr.quotedAlias => quoted

/-- The fixed column list of the fetch `SELECT`, in source order
(`src/app.py` lines 31-35, identical in `src/dashboard.py` lines 61-66);
the `ma75` expression is appended last. -/
def fixedCols : List String :=
  ["time", "pair", "open", "high", "low", "close", "volume",
   "avg_volume_20", "rsi14", "macd", "macd_signal",
   "bb_upper", "bb_lower", "bb_basis",
   "ma50", "ma100", "ma200", "sma10", "sma50",
   "vwma10", "vwma20", "vwma50"]

/-- Cursor column name produced by each `ma75` expression: selecting the
unquoted column yields the name `ma75`; the quoted column is explicitly
aliased `AS ma75`. -/
def exprColName : Ma75Expr → String
  | Ma75Expr.unquoted => "ma75"
  | Ma75Expr.quotedAlias => "ma75"

/-- A query result as the python code sees it: the cursor's column names
plus the row data (the dict-of-lists of `src/app.py` resp. the DataFrame
of `src/dashboard.py`, both keyed by the same column names). -/
structure QueryResult where
  cols : List String
  rows : List PriceRow
deriving DecidableEq, Repr

/-- The `WHERE`/time-window predicate of the fetch query
(`src/app.py` lines 38-42): `pair = %s`, and when `days` is a day count
also `time >= NOW() - make_interval(days => %s)`; when `days` is the
all-history sentinel (`None`) there is no time clause. -/
def rowPred (pair : String) (days : Option Nat) (now : Int) (r : PriceRow) : Bool :=
  r.pair == pair &&
    (match days with
     | none => true
     | some w => decide (now - (w : Int) * 86400 ≤ r.time))

/-- Ordering relation of the `ORDER BY time ASC` clause. -/
def timeLE (a b : PriceRow) : Prop := a.time ≤ b.time

instance : DecidableRel timeLE := fun a b => inferInstanceAs (Decidable (a.time ≤ b.time))

instance : IsTotal PriceRow timeLE := ⟨fun a b => le_total a.time b.time⟩

instance : IsTrans PriceRow timeLE := ⟨fun _ _ _ h h' => le_trans h h'⟩

/-- Row set delivered by the database for the fetch query: the table rows
satisfying the `WHERE` clause, ordered ascending by `time`. -/
def queryRows (table : List PriceRow) (pair : String) (days : Option Nat) (now : Int) :
    List PriceRow :=
  List.insertionSort timeLE (table.filter (rowPred pair days now))

/-- Function `run_query` of `src/app.py` (lines 44-56): execute the parametrised
`SELECT` with the given `ma75` expression and return column names and
data.  It fails when the connection fails or when the chosen `ma75`
expression does not resolve against the physical schema. -/
def run_query (db : DB) (pair : String) (days : Option Nat) (now : Int)
    (expr : Ma75Expr) : Except QErr QueryResult :=
  if db.connFails then Except.error QErr.connectionError
  else if exprMatches db.ma75Quoted expr then
    Except.ok ⟨fixedCols ++ [exprColName expr], queryRows db.table pair days now⟩
  else Except.error QErr.columnNotFound

/-- Function `fetch_data` of `src/app.py` (lines 23-66): try the unquoted `ma75`
first; if that attempt raises, or the returned shape has no `ma75` key
(the guard of lines 61-63), retry the identical query with
`"MA75" AS ma75`; the retry's outcome, success or failure, is returned
as-is (no further fallback). -/
def fetch_data (db : DB) (pair : String) (days : Option Nat) (now : Int) :
    Except QErr QueryResult :=
  match run_query db pair days now Ma75Expr.unquoted with
  | Except.ok data =>
      if "ma75" ∈ data.cols then Except.ok data
      else run_query db pair days now Ma75Expr.quotedAlias
  | Except.error _ => run_query db pair days now Ma75Expr.quotedAlias

/-- Function `fetch_pairs` of `src/app.py` (lines 16-21):
`SELECT DISTINCT pair FROM cryptoprices ORDER BY pair` — the distinct
pair identifiers sorted ascending; fails when the connection fails. -/
def fetch_pairs (db : DB) : Except QErr (List String) :=
  if db.connFails then Except.error QErr.connectionError
  else Except.ok (List.insertionSort (· ≤ ·) (db.table.map (·.pair)).dedup)

/-- The module-level catalog of `src/app.py` lines 74-77: the fetched
pair list, or the empty list when `fetch_pairs` raised. -/
def PAIRS (db : DB) : List String :=
  match fetch_pairs db with
  | Except.ok l => l
  | Except.error _ => []

/-- Expression `default_pair` of `src/app.py` line 79:
`"BTCUSDT" if "BTCUSDT" in PAIRS else (PAIRS[0] if PAIRS else None)`. -/
def default_pair (pairs : List String) : Option String :=
  if "BTCUSDT" ∈ pairs then some "BTCUSDT" else pairs.head?

/-! SQL text construction of `src/app.py` lines 30-45: the template `base`
has two placeholders, the `ma75` expression and the optional time clause,
and `base.format(...)` splices the strings in place. -/

/-- Text of the `base` template before the `ma75_expr` placeholder. -/
def sqlHead : String :=
  "\n        SELECT time, pair, open, high, low, close, volume,\n               avg_volume_20, rsi14, macd, macd_signal,\n               bb_upper, bb_lower, bb_basis,\n               ma50, ma100, ma200, sma10, sma50,\n               vwma10, vwma20, vwma50,\n               "

/-- Text of the `base` template between the two placeholders. -/
def sqlMid : String :=
  "\n        FROM cryptoprices\n        WHERE pair = %s\n        "

/-- Text of the `base` template after the time-clause placeholder. -/
def sqlTail : String :=
  "\n        ORDER BY time ASC\n    "

/-- The call `base.format(ma75_expr=..., time_clause=...)` of `src/app.py` line 45. -/
def buildSql (ma75_expr timeClause : String) : String :=
  sqlHead ++ ma75_expr ++ sqlMid ++ timeClause ++ sqlTail

/-- The `time_clause` of `src/app.py` line 42: empty for all history,
the parametrised interval condition for a day count. -/
def timeClauseStr (days : Option Nat) : String :=
  match days with
  | none => ""
  | some _ => "AND time >= NOW() - make_interval(days => %s)"

/-- The two `ma75` expression strings tried by `fetch_data`
(`src/app.py` lines 60 and 66). -/
def ma75ExprStr : Ma75Expr → String
  | Ma75Expr.unquoted => "ma75"
  | Ma75Expr.quotedAlias => "\"MA75\" AS ma75"

/-! The Streamlit variant, `src/dashboard.py`. -/

/-- Function `run_sql` of `src/dashboard.py` (lines 19-26) applied to the price
query of `load_prices`: execute, and on ANY exception render it with
`st.exception` and return an empty DataFrame (no columns, no rows) to the
caller.  The Streamlit query always carries a day window. -/
def run_sql_prices (db : DB) (pair : String) (dayWindow : Nat) (now : Int)
    (expr : Ma75Expr) : QueryResult :=
  match run_query db pair (some dayWindow) now expr with
  | Except.ok r => r
  | Except.error _ => ⟨[], []⟩

/-- Function `load_prices` of `src/dashboard.py` (lines 59-80): try the unquoted
`ma75`; if the resulting frame has no `ma75` column (also the case when
`run_sql` swallowed an error into an empty frame), retry with
`"MA75" AS ma75` and return that frame unconditionally. -/
def load_prices (db : DB) (selected_pair : String) (day_window : Nat) (now : Int) :
    QueryResult :=
  let df := run_sql_prices db selected_pair day_window now Ma75Expr.unquoted
  if "ma75" ∈ df.cols then df
  else run_sql_prices db selected_pair day_window now Ma75Expr.quotedAlias

/-- Outcome of the Streamlit page after `load_prices`
(`src/dashboard.py` lines 82-85): an empty frame stops with the
informational message `Query returned no rows for the selected filters.`,
otherwise the page renders the frame. -/
inductive DashView where
  | emptyInfo
  | rendered (df : QueryResult)
deriving DecidableEq, Repr

/-- The `df = load_prices(...)`; `if df.empty: st.info(...); st.stop()`
flow of `src/dashboard.py` lines 82-85. -/
def dashboard_view (db : DB) (p : String) (w : Nat) (now : Int) : DashView :=
  let df := load_prices db p w now
  if df.rows.isEmpty then DashView.emptyInfo else DashView.rendered df

/-- Query `pairs_df` of `src/dashboard.py` line 47: the catalog query through
`run_sql`, which returns an empty frame when the query fails. -/
def pairs_df (db : DB) : List String :=
  match fetch_pairs db with
  | Except.ok l => l
  | Except.error _ => []

/-- Outcome of the Streamlit pair-selection block
(`src/dashboard.py` lines 47-53): an empty catalog warns and stops;
otherwise `st.selectbox(..., index=0)` preselects the first pair. -/
inductive DashPairsStep where
  | warnStop
  | select (pairs : List String) (selected : String)
deriving DecidableEq, Repr

/-- The `if pairs_df.empty: st.warning(...); st.stop()` /
`st.selectbox("Pair", pairs, index=0)` flow of `src/dashboard.py`
lines 47-53. -/
def dash_pairs_step (db : DB) : DashPairsStep :=
  match pairs_df db with
  | [] => DashPairsStep.warnStop
  | h :: t => DashPairsStep.select (h :: t) h

/-! The Dash callback `update` of `src/app.py` lines 140-228. -/

/-- Outcome of the `update` callback: the no-pair message, the
`Query error: ...` message, the `No rows for the selected filters.`
message, or a full render of the fetched data. -/
inductive UpdateView where
  | noPairs
  | queryError (e : QErr)
  | emptyResult
  | rendered (data : QueryResult)
deriving DecidableEq, Repr

/-- Expression `days_param` of `src/app.py` line 147: `None` (all history) when the
`Show all history` box is checked, else the slider's day count. -/
def days_param (allData : Bool) (days : Nat) : Option Nat :=
  if allData then none else some days

/-- The `update` callback of `src/app.py` (lines 140-155 decide which
view is produced): a falsy pair value short-circuits to the no-pairs
message before any fetch; a fetch exception becomes the query-error
message; an empty `time` column becomes the empty-result message. -/
def update (db : DB) (pairSel : Option String) (days : Nat) (allData : Bool)
    (now : Int) : UpdateView :=
  match pairSel with
  | none => UpdateView.noPairs
  | some p =>
      if p = "" then UpdateView.noPairs
      else
        match fetch_data db p (days_param allData days) now with
        | Except.error e => UpdateView.queryError e
        | Except.ok data =>
            if data.rows.isEmpty then UpdateView.emptyResult
            else UpdateView.rendered data

/-! KPI formatting. -/

/-- Left-pad a digit string with zeros to width `d`. -/
def leftPad (d : Nat) (s : String) : String :=
  (List.replicate (d - s.length) '0').asString ++ s

/-- Fixed-point decimal rendering of the f-string `f"{x:.{d}f}"`: sign,
integer digits, and for `d > 0` a point followed by exactly `d`
fractional digits (rounding half away from zero). -/
def formatFixed (q : Rat) (d : Nat) : String :=
  let scaled : Int := Int.floor (|q| * ((10 : Rat) ^ d) + 1 / 2)
  let ip := scaled / ((10 : Nat) ^ d : Int)
  let fp := (scaled % ((10 : Nat) ^ d : Int)).toNat
  let sign := if q < 0 then "-" else ""
  if d = 0 then sign ++ toString ip
  else sign ++ toString ip ++ "." ++ leftPad d (toString fp)

/-- Function `fmt` of `src/app.py` lines 165-169: `float(x)` raises on a missing
(`None`) value, so the em-dash placeholder is returned; a numeric value
is rendered in fixed-point with `d` decimals. -/
def fmt (x : Option Rat) (d : Nat) : String :=
  match x with
  | none => "—"
  | some q => formatFixed q d

/-- A KPI cell of `src/app.py` lines 175-178:
`fmt(col[latest], d) if col else "—"` with `latest = -1` — the em-dash
when the column is absent/empty, else `fmt` of the last value. -/
def kpi (vals : List (Option Rat)) (d : Nat) : String :=
  match vals.getLast? with
  | none => "—"
  | some v => fmt v d

/-- A Streamlit KPI metric of `src/dashboard.py` lines 90-93:
`f"{v:.df}" if pd.notna(v) else "—"` applied to a field of the last row. -/
def dashMetric (v : Option Rat) (d : Nat) : String :=
  match v with
  | none => "—"
  | some q => formatFixed q d

/-! Column access on a query result, mirroring `data.get(name)` on the
dict-of-lists of `src/app.py` / `df[name]` on the DataFrame. -/

/-- The numeric field of a row selected by column name (`none`-valued for
names that are not numeric columns). -/
def colFun : String → PriceRow → Option Rat
  | "open" => (·.«open»)
  | "high" => (·.high)
  | "low" => (·.low)
  | "close" => (·.close)
  | "volume" => (·.volume)
  | "avg_volume_20" => (·.avg_volume_20)
  | "rsi14" => (·.rsi14)
  | "macd" => (·.macd)
  | "macd_signal" => (·.macd_signal)
  | "bb_upper" => (·.bb_upper)
  | "bb_lower" => (·.bb_lower)
  | "bb_basis" => (·.bb_basis)
  | "ma50" => (·.ma50)
  | "ma75" => (·.ma75)
  | "ma100" => (·.ma100)
  | "ma200" => (·.ma200)
  | "sma10" => (·.sma10)
  | "sma50" => (·.sma50)
  | "vwma10" => (·.vwma10)
  | "vwma20" => (·.vwma20)
  | "vwma50" => (·.vwma50)
  | _ => fun _ => none

/-- Access `data.get(name)` of `src/app.py` line 190: the column's value list
when the column is present in the result, `None` otherwise. -/
def getCol (res : QueryResult) (name : String) : Option (List (Option Rat)) :=
  if name ∈ res.cols then some (res.rows.map (colFun name)) else none

/-- The inclusion test of `maybe_add` in `src/app.py` lines 189-192:
`if series and any(v is not None for v in series)` — the series must be
present, non-empty, and hold at least one non-null value to be added to
the moving-averages/bands figure. -/
def maybe_add_included (res : QueryResult) (name : String) : Bool :=
  match getCol res name with
  | none => false
  | some series => !series.isEmpty && series.any (fun v => !v.isNone)

/-- The candidate columns of the Dash moving-averages/bands chart
(`src/app.py` line 194). -/
def appMaNames : List String :=
  ["sma10", "sma50", "ma50", "ma75", "ma100", "ma200",
   "bb_upper", "bb_lower", "bb_basis"]

/-- The series set actually drawn in the Dash moving-averages/bands
chart: the candidates passing `maybe_add` (`src/app.py` lines 194-195). -/
def appMaSeriesSet (res : QueryResult) : List String :=
  appMaNames.filter (fun c => maybe_add_included res c)

/-- The candidate columns of the Streamlit moving-averages chart
(`src/dashboard.py` line 102). -/
def dashMaNames : List String :=
  ["sma10", "sma50", "ma50", "ma75", "ma100", "ma200"]

/-- List `ma_cols` of `src/dashboard.py` line 102: the candidates present in
the frame's columns — membership is the ONLY test applied. -/
def ma_cols (df : QueryResult) : List String :=
  dashMaNames.filter (fun c => decide (c ∈ df.cols))

/-! Tail-of-table view. -/

/-- A heterogeneous table cell: missing, numeric, string, or timestamp. -/
inductive Value where
  | vnone
  | num (q : Rat)
  | str (s : String)
  | time (t : Int)
deriving DecidableEq, Repr

/-- Embed a nullable numeric field as a cell. -/
def optVal : Option Rat → Value
  | none => Value.vnone
  | some q => Value.num q

/-- The cell of a row under a column name, as stored (native value). -/
def cellOf (r : PriceRow) : String → Value
  | "time" => Value.time r.time
  | "pair" => Value.str r.pair
  | c => optVal (colFun c r)

/-- Two-digit zero-padded decimal rendering. -/
def pad2 (n : Nat) : String :=
  if n < 10 then "0" ++ toString n else toString n

/-- Civil date (year, month, day) of a day count since 1970-01-01,
following the standard Gregorian conversion used by `datetime`. -/
def civilFromDays (z : Nat) : Nat × Nat × Nat :=
  let zz := z + 719468
  let era := zz / 146097
  let doe := zz % 146097
  let yoe := (doe - doe / 1460 + doe / 36524 - doe / 146096) / 365
  let y := yoe + era * 400
  let doy := doe - (365 * yoe + yoe / 4 - yoe / 100)
  let mp := (5 * doy + 2) / 153
  let d := doy - (153 * mp + 2) / 5 + 1
  let m := if mp < 10 then mp + 3 else mp - 9
  (if m ≤ 2 then y + 1 else y, m, d)

/-- Rendering `datetime.isoformat(sep=" ")` for a whole-second timestamp:
`YYYY-MM-DD HH:MM:SS` — note the seconds component is always present. -/
def epochToIso (t : Int) : String :=
  let s := t.toNat
  let ymd := civilFromDays (s / 86400)
  let secs := s % 86400
  toString ymd.1 ++ "-" ++ pad2 ymd.2.1 ++ "-" ++ pad2 ymd.2.2 ++ " " ++
    pad2 (secs / 3600) ++ ":" ++ pad2 (secs % 3600 / 60) ++ ":" ++ pad2 (secs % 60)

/-- Modelled from the spec: the tail-view time format the spec claims,
`YYYY-MM-DD HH:MM` — minute precision, no seconds component.  This is a
spec-side definition used only to compare against the code's rendering. -/
def specTimeFormatHHMM (t : Int) : String :=
  let s := t.toNat
  let ymd := civilFromDays (s / 86400)
  let secs := s % 86400
  toString ymd.1 ++ "-" ++ pad2 ymd.2.1 ++ "-" ++ pad2 ymd.2.2 ++ " " ++
    pad2 (secs / 3600) ++ ":" ++ pad2 (secs % 3600 / 60)

/-- Cell rendering of the table loop in `src/app.py` line 214:
`v.isoformat(sep=" ") if c == "time" and v else v` — a truthy `time`
cell becomes the ISO string, every other cell keeps its native value. -/
def renderCell (c : String) (v : Value) : Value :=
  if c == "time" then
    match v with
    | Value.time t => Value.str (epochToIso t)
    | w => w
  else v

/-- The last `min(200, length)` elements, in original order
(`tail_len = min(200, len(time)); start = len(time) - tail_len` of
`src/app.py` lines 207-209; `df.tail(200)` of `src/dashboard.py`
line 117). -/
def tailSlice {α : Type} (l : List α) : List α :=
  l.drop (l.length - min 200 l.length)

/-- The table's column list (`src/app.py` line 206): the fixed display
columns that are present in the fetched data. -/
def tableCols (data : QueryResult) : List String :=
  ["time", "pair", "open", "high", "low", "close", "volume",
   "rsi14", "macd", "macd_signal"].filter (fun c => decide (c ∈ data.cols))

/-- The rendered tail rows of `src/app.py` lines 206-215: for each of the
last `min(200, n)` source rows, the display columns paired with their
rendered cells. -/
def tableRows (data : QueryResult) : List (List (String × Value)) :=
  (tailSlice data.rows).map
    (fun r => (tableCols data).map (fun c => (c, renderCell c (cellOf r c))))

/-- Slice `df.tail(200)` of `src/dashboard.py` line 117: the Streamlit raw-data
view; no cell is reformatted, the `time` values stay native. -/
def dash_tail (df : QueryResult) : List PriceRow :=
  tailSlice df.rows

/-- The time-window condition of the fetch as a proposition: no
constraint for all history, `now - w days ≤ time` for a day count `w`. -/
def timeOk (days : Option Nat) (now : Int) (r : PriceRow) : Prop :=
  match days with
  | none => True
  | some w => now - (w : Int) * 86400 ≤ r.time

/-! Concrete fixtures used to instantiate the theorems. -/

/-- A sample table row (`BTCUSDT` at time 100, several indicators null —
in particular `ma75` is null). -/
def r0 : PriceRow :=
  ⟨100, "BTCUSDT", some 1, some 2, some 3, some 4, some 5, none, some 6,
   some 7, some 8, none, none, none, none, none, none, none, none, none,
   none, none, none⟩

/-- A sample row for a pair that is not `BTCUSDT`. -/
def r1 : PriceRow :=
  { r0 with pair := "AAAUSDT" }

/-- Database storing the `ma75` column case-folded lowercase. -/
def dbU : DB := ⟨[r0], false, false⟩

/-- Database storing the `ma75` column quoted mixed-case (`"MA75"`). -/
def dbQ : DB := ⟨[r0], true, false⟩

/-- Database whose connection/query machinery fails. -/
def dbF : DB := ⟨[r0], false, true⟩

/-- Database whose only pair is `AAAUSDT`. -/
def dbA : DB := ⟨[r1], false, false⟩

/-- The result a fetch of `BTCUSDT` over the last 90 days at `now = 1000`
delivers from `dbU` (and from `dbQ`). -/
def resU : QueryResult := ⟨fixedCols ++ ["ma75"], [r0]⟩

/-! Helper lemmas about the query layer. -/

theorem exprColName_ma75 (e : Ma75Expr) : exprColName e = "ma75" := by
  cases e <;> rfl

theorem emdash_ne_zeroZero : ("—" : String) ≠ "0.00" := by
  decide

theorem rowPred_iff (p : String) (d : Option Nat) (now : Int) (r : PriceRow) :
    rowPred p d now r = true ↔ r.pair = p ∧ timeOk d now r := by
  cases d <;> simp [rowPred, timeOk]

theorem run_query_ok_iff (db : DB) (p : String) (d : Option Nat) (now : Int)
    (e : Ma75Expr) (r : QueryResult) :
    run_query db p d now e = Except.ok r ↔
      db.connFails = false ∧ exprMatches db.ma75Quoted e = true ∧
        r = ⟨fixedCols ++ ["ma75"], queryRows db.table p d now⟩ := by
  rw [show (fixedCols ++ ["ma75"] : List String) = fixedCols ++ [exprColName e] from by
    cases e <;> rfl]
  by_cases hc : db.connFails <;> by_cases hm : exprMatches db.ma75Quoted e <;>
    simp [run_query, hc, hm, eq_comm]

theorem ma75_mem_resultCols : "ma75" ∈ fixedCols ++ ["ma75"] := by
  simp

theorem fetch_data_of_connFails (db : DB) (p : String) (d : Option Nat) (now : Int)
    (h : db.connFails = true) :
    fetch_data db p d now = Except.error QErr.connectionError := by
  simp [fetch_data, run_query, h]

theorem fetch_data_of_conn (db : DB) (p : String) (d : Option Nat) (now : Int)
    (h : db.connFails = false) :
    fetch_data db p d now =
      Except.ok ⟨fixedCols ++ ["ma75"], queryRows db.table p d now⟩ := by
  cases hq : db.ma75Quoted <;>
    simp [fetch_data, run_query, h, hq, exprMatches, exprColName,
      ma75_mem_resultCols]

theorem fetch_data_ok_iff (db : DB) (p : String) (d : Option Nat) (now : Int)
    (r : QueryResult) :
    fetch_data db p d now = Except.ok r ↔
      db.connFails = false ∧ r = ⟨fixedCols ++ ["ma75"], queryRows db.table p d now⟩ := by
  by_cases hc : db.connFails
  · simp [fetch_data_of_connFails db p d now hc, hc]
  · simp [fetch_data_of_conn db p d now (by simpa using hc), hc, eq_comm]

theorem mem_queryRows {t : List PriceRow} {p : String} {d : Option Nat} {now : Int}
    {r : PriceRow} :
    r ∈ queryRows t p d now ↔ r ∈ t ∧ (r.pair = p ∧ timeOk d now r) := by
  rw [queryRows, List.mem_insertionSort, List.mem_filter, rowPred_iff]

theorem queryRows_perm (t : List PriceRow) (p : String) (d : Option Nat) (now : Int) :
    (queryRows t p d now).Perm (t.filter (rowPred p d now)) :=
  List.perm_insertionSort timeLE _

theorem queryRows_pairwise (t : List PriceRow) (p : String) (d : Option Nat) (now : Int) :
    (queryRows t p d now).Pairwise timeLE :=
  List.sorted_insertionSort timeLE _

theorem load_prices_of_conn (db : DB) (p : String) (w : Nat) (now : Int)
    (h : db.connFails = false) :
    load_prices db p w now =
      ⟨fixedCols ++ ["ma75"], queryRows db.table p (some w) now⟩ := by
  cases hq : db.ma75Quoted <;>
    simp [load_prices, run_sql_prices, run_query, h, hq, exprMatches, exprColName,
      ma75_mem_resultCols]

/-! Claim theorems. -/

/-- C1 counterexample: in the Streamlit variant a failed retry does NOT
propagate to the caller as a `DataUnavailable` failure.  On a database
whose connection fails, both attempts of `load_prices` fail inside
`run_sql`, yet the caller receives an empty DataFrame — no error
reaches it — refuting the claim that the retry's failure propagates as
`DataUnavailable` for `load_prices`. -/
theorem C1_counterexample :
    dbF.connFails = true ∧
    run_query dbF "BTCUSDT" (some 90) 1000 Ma75Expr.unquoted =
      Except.error QErr.connectionError ∧
    run_query dbF "BTCUSDT" (some 90) 1000 Ma75Expr.quotedAlias =
      Except.error QErr.connectionError ∧
    load_prices dbF "BTCUSDT" 90 1000 = ⟨[], []⟩ :=
  ⟨rfl, rfl, rfl, rfl⟩

/-- C1 amended: both variants follow the two-attempt column-resolution
algorithm — the first attempt uses the unquoted column name `ma75`; if
it raises any error or the returned shape lacks an `ma75` field, the
identical query is retried reading the quoted mixed-case column aliased
to `ma75`, and the retry's outcome is returned as-is with no further
fallback.  In the Dash variant (`src/app.py`) a failing retry propagates
its error (the `DataUnavailable` condition) to the caller; in the
Streamlit variant (`src/dashboard.py`) `run_sql` catches each attempt's
exception and yields an empty DataFrame, so a failing retry reaches the
caller as an empty frame rather than as a `DataUnavailable` failure. -/
theorem C1_fetch_fallback (db : DB) (p : String) (d : Option Nat) (w : Nat)
    (now : Int) :
    (∀ r, run_query db p d now Ma75Expr.unquoted = Except.ok r → "ma75" ∈ r.cols →
        fetch_data db p d now = Except.ok r) ∧
    (∀ e, run_query db p d now Ma75Expr.unquoted = Except.error e →
        fetch_data db p d now = run_query db p d now Ma75Expr.quotedAlias) ∧
    (∀ r, run_query db p d now Ma75Expr.unquoted = Except.ok r → "ma75" ∉ r.cols →
        fetch_data db p d now = run_query db p d now Ma75Expr.quotedAlias) ∧
    (∀ e e2, run_query db p d now Ma75Expr.unquoted = Except.error e →
        run_query db p d now Ma75Expr.quotedAlias = Except.error e2 →
        fetch_data db p d now = Except.error e2) ∧
    ("ma75" ∈ (run_sql_prices db p w now Ma75Expr.unquoted).cols →
        load_prices db p w now = run_sql_prices db p w now Ma75Expr.unquoted) ∧
    ("ma75" ∉ (run_sql_prices db p w now Ma75Expr.unquoted).cols →
        load_prices db p w now = run_sql_prices db p w now Ma75Expr.quotedAlias) ∧
    (∀ e expr, run_query db p (some w) now expr = Except.error e →
        run_sql_prices db p w now expr = ⟨[], []⟩) := by
  refine ⟨fun r h1 h2 => ?_, fun e h1 => ?_, fun r h1 h2 => ?_,
    fun e e2 h1 h2 => ?_, fun h1 => ?_, fun h1 => ?_, fun e expr h1 => ?_⟩
  · simp [fetch_data, h1, h2]
  · simp [fetch_data, h1]
  · simp [fetch_data, h1, h2]
  · simp [fetch_data, h1, h2]
  · simp [load_prices, h1]
  · simp [load_prices, h1]
  · simp [run_sql_prices, h1]

/-- C1 witness: on a database whose connection fails, the Dash fetch
propagates the retry's error to the caller, while the Streamlit
`run_sql` swallows both failed attempts into an empty DataFrame that
`load_prices` returns. -/
theorem C1_fetch_fallback_witness :
    fetch_data dbF "BTCUSDT" (some 90) 1000 = Except.error QErr.connectionError ∧
    run_sql_prices dbF "BTCUSDT" 90 1000 Ma75Expr.quotedAlias = ⟨[], []⟩ ∧
    load_prices dbF "BTCUSDT" 90 1000 =
      run_sql_prices dbF "BTCUSDT" 90 1000 Ma75Expr.quotedAlias := by
  have h := C1_fetch_fallback dbF "BTCUSDT" (some 90) 90 1000
  exact ⟨h.2.2.2.1 QErr.connectionError QErr.connectionError rfl rfl,
    h.2.2.2.2.2.2 QErr.connectionError Ma75Expr.quotedAlias rfl,
    h.2.2.2.2.2.1 (by decide)⟩

/-- C2: the two fetch attempts differ only in the `ma75` column
expression — the generated SQL texts share the identical prefix (column
list, `FROM`, `WHERE`) and suffix (`ORDER BY time ASC`) around it — and
for the same underlying data any two successful attempts return the same
column list and identical rows; whichever resolution path succeeds, the
fetch exposes the same fixed set of logical field names with the same
values, so the caller cannot observe which path was taken.  The same
holds for the Streamlit `load_prices`. -/
theorem C2_fallback_transparency :
    (∀ tc e, buildSql (ma75ExprStr e) tc =
        sqlHead ++ (ma75ExprStr e ++ (sqlMid ++ (tc ++ sqlTail)))) ∧
    (∀ (db : DB) (p : String) (d : Option Nat) (now : Int) (e1 e2 : Ma75Expr)
        (r1 r2 : QueryResult), run_query db p d now e1 = Except.ok r1 →
        run_query db p d now e2 = Except.ok r2 → r1 = r2) ∧
    (∀ (db : DB) (p : String) (d : Option Nat) (now : Int), db.connFails = false →
        fetch_data db p d now =
          Except.ok ⟨fixedCols ++ ["ma75"], queryRows db.table p d now⟩) ∧
    (∀ (t : List PriceRow) (q1 q2 : Bool) (p : String) (d : Option Nat) (now : Int),
        fetch_data ⟨t, q1, false⟩ p d now = fetch_data ⟨t, q2, false⟩ p d now) ∧
    (∀ (db : DB) (p : String) (w : Nat) (now : Int), db.connFails = false →
        load_prices db p w now =
          ⟨fixedCols ++ ["ma75"], queryRows db.table p (some w) now⟩) := by
  refine ⟨?_, ?_, ?_, ?_, ?_⟩
  · intro tc e
    simp [buildSql, String.append_assoc]
  · intro db p d now e1 e2 r1 r2 h1 h2
    rw [run_query_ok_iff] at h1 h2
    rw [h1.2.2, h2.2.2]
  · intro db p d now h
    exact fetch_data_of_conn db p d now h
  · intro t q1 q2 p d now
    rw [fetch_data_of_conn ⟨t, q1, false⟩ p d now rfl,
      fetch_data_of_conn ⟨t, q2, false⟩ p d now rfl]
  · intro db p w now h
    exact load_prices_of_conn db p w now h

/-- C2 witness: against the same one-row table, the fetch through the
quoted-column schema returns the very result the unquoted-column schema
produces. -/
theorem C2_fallback_transparency_witness :
    fetch_data dbQ "BTCUSDT" (some 90) 1000 =
      Except.ok ⟨fixedCols ++ ["ma75"], queryRows dbQ.table "BTCUSDT" (some 90) 1000⟩ ∧
    fetch_data dbU "BTCUSDT" (some 90) 1000 = fetch_data dbQ "BTCUSDT" (some 90) 1000 := by
  refine ⟨C2_fallback_transparency.2.2.1 dbQ "BTCUSDT" (some 90) 1000 rfl, ?_⟩
  have h := C2_fallback_transparency.2.2.2.1 [r0] false true "BTCUSDT" (some 90) 1000
  exact h

/-- C5: a successful bounded fetch returns exactly the table rows whose
`pair` equals the requested pair and, when the window is a day count `w`,
whose `time` is at least `now - w` days (no time constraint for the
all-history sentinel), ordered ascending by `time`: the result is a
permutation of the filtered table, membership is characterised by the
filter predicate, and the rows are pairwise ordered by time. -/
theorem C5_filter_correctness (db : DB) (p : String) (d : Option Nat) (now : Int)
    (res : QueryResult) (h : fetch_data db p d now = Except.ok res) :
    res.rows.Perm (db.table.filter (rowPred p d now)) ∧
    (∀ r, r ∈ res.rows ↔ r ∈ db.table ∧ r.pair = p ∧ timeOk d now r) ∧
    res.rows.Pairwise timeLE := by
  rw [fetch_data_ok_iff] at h
  rw [h.2]
  refine ⟨queryRows_perm db.table p d now, ?_, queryRows_pairwise db.table p d now⟩
  intro r
  simpa [and_assoc] using (@mem_queryRows db.table p d now r)

/-- C5 witness: fetching `BTCUSDT` with a 90-day window at `now = 1000`
from the one-row table returns exactly its matching row, and the result
is sorted by time. -/
theorem C5_filter_correctness_witness :
    fetch_data dbU "BTCUSDT" (some 90) 1000 = Except.ok resU ∧
    (∀ r, r ∈ resU.rows ↔ r ∈ dbU.table ∧ r.pair = "BTCUSDT" ∧ timeOk (some 90) 1000 r) ∧
    resU.rows.Pairwise timeLE := by
  have h := C5_filter_correctness dbU "BTCUSDT" (some 90) 1000 resU rfl
  exact ⟨rfl, h.2.1, h.2.2⟩

/-- C3 counterexample: in the Streamlit variant a failed fetch IS
presented to the caller as an empty result.  On a database whose
connection fails, `run_sql` swallows the exception into an empty
DataFrame, `load_prices` returns it, and the page shows the
informational empty state (`Query returned no rows for the selected
filters.`) — the same outcome as a genuine zero-row result — refuting
the claim that a failure is never presented as an empty result. -/
theorem C3_counterexample :
    dbF.connFails = true ∧
    dashboard_view dbF "BTCUSDT" 90 1000 = DashView.emptyInfo ∧
    load_prices dbF "BTCUSDT" 90 1000 = ⟨[], []⟩ :=
  ⟨rfl, rfl, rfl⟩

/-- C3 amended: in the Dash variant (`src/app.py`) the distinction holds
— a zero-row success is presented as the empty-result message, a fetch
failure as the query-error message, and the two outcomes are distinct;
in the Streamlit variant (`src/dashboard.py`), `run_sql` recovers any
query/connection failure into an empty DataFrame (after rendering the
exception), so a failed fetch is subsequently presented as the same
informational empty state as a zero-row result. -/
theorem C3_empty_vs_failure (db : DB) (p : String) (days : Nat) (allData : Bool)
    (now : Int) :
    (p ≠ "" → ∀ e, fetch_data db p (days_param allData days) now = Except.error e →
        update db (some p) days allData now = UpdateView.queryError e) ∧
    (p ≠ "" → ∀ res, fetch_data db p (days_param allData days) now = Except.ok res →
        res.rows = [] → update db (some p) days allData now = UpdateView.emptyResult) ∧
    (∀ e, UpdateView.queryError e ≠ UpdateView.emptyResult) ∧
    (db.connFails = true → dashboard_view db p days now = DashView.emptyInfo) := by
  refine ⟨fun hp e h => ?_, fun hp res h hr => ?_, fun e => ?_, fun hc => ?_⟩
  · simp [update, hp, h]
  · simp [update, hp, h, hr]
  · simp
  · simp [dashboard_view, load_prices, run_sql_prices, run_query, hc]

/-- C3 witness: concrete instances of all three outcomes — a failing
connection renders the query-error message in the Dash variant and the
empty informational state in the Streamlit variant, while a zero-row
fetch (window so small no row matches) renders the empty-result
message. -/
theorem C3_empty_vs_failure_witness :
    update dbF (some "BTCUSDT") 90 false 1000 =
      UpdateView.queryError QErr.connectionError ∧
    update dbU (some "BTCUSDT") 90 false 10000000 = UpdateView.emptyResult ∧
    dashboard_view dbF "BTCUSDT" 90 1000 = DashView.emptyInfo := by
  refine ⟨(C3_empty_vs_failure dbF "BTCUSDT" 90 false 1000).1 (by decide)
      QErr.connectionError rfl,
    (C3_empty_vs_failure dbU "BTCUSDT" 90 false 10000000).2.1 (by decide)
      ⟨fixedCols ++ ["ma75"], []⟩ rfl rfl,
    (C3_empty_vs_failure dbF "BTCUSDT" 90 false 1000).2.2.2 rfl⟩

/-- C4: when the pair-catalog query or its connection fails, the lookup
fails with the `DataUnavailable` condition; the Dash caller swallows the
exception into an empty `PAIRS` list, selects no default pair, and the
callback renders the no-pairs message without attempting a fetch; the
Streamlit caller warns and stops without selecting any pair. -/
theorem C4_catalog_failure (db : DB) (days : Nat) (allData : Bool) (now : Int)
    (h : db.connFails = true) :
    fetch_pairs db = Except.error QErr.connectionError ∧
    PAIRS db = [] ∧
    default_pair (PAIRS db) = none ∧
    update db none days allData now = UpdateView.noPairs ∧
    dash_pairs_step db = DashPairsStep.warnStop := by
  have hp : fetch_pairs db = Except.error QErr.connectionError := by
    simp [fetch_pairs, h]
  refine ⟨hp, ?_, ?_, rfl, ?_⟩
  · simp [PAIRS, hp]
  · simp [PAIRS, hp, default_pair]
  · simp [dash_pairs_step, pairs_df, hp]

/-- C4 witness: the failing database yields no catalog, no default pair,
the no-pairs view, and the Streamlit warn-and-stop outcome. -/
theorem C4_catalog_failure_witness :
    fetch_pairs dbF = Except.error QErr.connectionError ∧
    PAIRS dbF = [] ∧
    default_pair (PAIRS dbF) = none ∧
    update dbF none 90 false 1000 = UpdateView.noPairs ∧
    dash_pairs_step dbF = DashPairsStep.warnStop :=
  C4_catalog_failure dbF 90 false 1000 rfl

/-- C6 counterexample: in the Streamlit variant an entirely-null column
is still drawn.  The fetched frame from `dbU` has an `ma75` column whose
every value is null, yet `ma75` is a member of `ma_cols` — membership in
the frame's columns is the only test — refuting the claim that a column
with all-null values is omitted. -/
theorem C6_counterexample :
    load_prices dbU "BTCUSDT" 90 1000 = resU ∧
    resU.rows.map (·.ma75) = [none] ∧
    "ma75" ∈ ma_cols resU := by
  exact ⟨rfl, rfl, by decide⟩

/-- C6 amended: in the Dash variant (`src/app.py`), an indicator column
is included in the moving-averages/bands series set iff its series is
present in the data and at least one value across the whole sequence is
non-null — entirely-null columns are omitted; in the Streamlit variant
(`src/dashboard.py`), a candidate column is included in `ma_cols` iff it
is present in the frame's columns, regardless of its values, so a
present but entirely-null column is still drawn. -/
theorem C6_series_inclusion (res : QueryResult) (name : String) :
    (maybe_add_included res name = true ↔
      ∃ series, getCol res name = some series ∧ ∃ v ∈ series, v ≠ none) ∧
    (∀ c, c ∈ ma_cols res ↔ c ∈ dashMaNames ∧ c ∈ res.cols) := by
  constructor
  · cases hg : getCol res name with
    | none => simp [maybe_add_included, hg]
    | some series =>
        simp [maybe_add_included, hg, List.any_eq_true, Option.isSome_iff_ne_none,
          List.isEmpty_eq_false_iff_exists_mem]
        intro x hx _
        exact List.ne_nil_of_mem hx
  · intro c
    simp [ma_cols, List.mem_filter]

/-- C7 counterexample: the tail view renders the `time` field with
`datetime.isoformat(sep=" ")`, which always carries a seconds component —
the row at time 100 renders as `1970-01-01 00:01:40`, not as the
minute-precision `YYYY-MM-DD HH:MM` form (`1970-01-01 00:01`) the claim
states. -/
theorem C7_counterexample :
    (tableRows resU).map (fun row => row.head?) =
      [some ("time", Value.str "1970-01-01 00:01:40")] ∧
    specTimeFormatHHMM 100 = "1970-01-01 00:01" ∧
    Value.str "1970-01-01 00:01:40" ≠ Value.str (specTimeFormatHHMM 100) := by
  exact ⟨rfl, rfl, by decide⟩

/-- C7 amended: in the Dash variant's tail view the `time` field is
rendered as the fixed-format string `YYYY-MM-DD HH:MM:SS`
(`isoformat(sep=" ")`, seconds included, not minute precision), while
every other field keeps its native value; the Streamlit variant's tail
view (`df.tail(200)`) performs no string conversion at all. -/
theorem C7_time_rendering (t : Int) (c : String) (v : Value) :
    renderCell "time" (Value.time t) = Value.str (epochToIso t) ∧
    (c ≠ "time" → renderCell c v = v) ∧
    (∀ df : QueryResult, dash_tail df = tailSlice df.rows) := by
  refine ⟨by simp [renderCell], fun h => ?_, fun df => rfl⟩
  simp [renderCell, h]

/-- C7 witness: the time cell at 100 seconds renders with its seconds
component, and a non-time cell keeps its native value. -/
theorem C7_time_rendering_witness :
    renderCell "time" (Value.time 100) = Value.str "1970-01-01 00:01:40" ∧
    renderCell "close" (Value.num 4) = Value.num 4 := by
  exact ⟨(C7_time_rendering 100 "close" (Value.num 4)).1,
    (C7_time_rendering 100 "close" (Value.num 4)).2.1 (by decide)⟩

/-- C8: the tail view has exactly `min(200, n)` rows for a source of
length `n`: it never exceeds 200 rows, contains all rows when the source
has fewer than 200, and is a suffix of the source (original, ascending
order preserved); the Streamlit `df.tail(200)` is the same slice. -/
theorem C8_tail_bounds (data : QueryResult) :
    (tableRows data).length = min 200 data.rows.length ∧
    (tableRows data).length ≤ 200 ∧
    (data.rows.length < 200 → tailSlice data.rows = data.rows) ∧
    (tailSlice data.rows).IsSuffix data.rows ∧
    dash_tail data = tailSlice data.rows := by
  have hlen : (tailSlice data.rows).length = min 200 data.rows.length := by
    simp only [tailSlice, List.length_drop]
    omega
  refine ⟨?_, ?_, ?_, List.drop_suffix _ _, rfl⟩
  · simpa [tableRows] using hlen
  · have : (tableRows data).length = min 200 data.rows.length := by
      simpa [tableRows] using hlen
    rw [this]
    exact min_le_left _ _
  · intro h
    have h0 : data.rows.length - min 200 data.rows.length = 0 := by omega
    simp [tailSlice, h0]

/-- C8 witness: on the one-row fetched result the tail view has
`min(200, 1) = 1` row and is the whole sequence. -/
theorem C8_tail_bounds_witness :
    (tableRows resU).length = min 200 resU.rows.length ∧
    tailSlice resU.rows = resU.rows := by
  exact ⟨(C8_tail_bounds resU).1, (C8_tail_bounds resU).2.2.1 (by decide)⟩

/-- C9: nulls are preserved end-to-end and never coerced to a default:
every row of a successful fetch is a row of the table itself (field
values untouched), and the display formatters render a missing value as
the em-dash placeholder — never as `0.00` or another numeric default —
both in the Dash `fmt`/KPI cells and in the Streamlit metrics. -/
theorem C9_null_preservation (db : DB) (p : String) (d : Option Nat) (now : Int)
    (res : QueryResult) (h : fetch_data db p d now = Except.ok res) :
    (∀ r ∈ res.rows, r ∈ db.table) ∧
    (∀ dd, fmt none dd = "—") ∧
    (∀ dd, fmt none dd ≠ "0.00") ∧
    (∀ (vals : List (Option Rat)) (dd : Nat), vals.getLast? = some none →
        kpi vals dd = "—") ∧
    (∀ dd, dashMetric none dd = "—") := by
  refine ⟨?_, fun dd => rfl, fun dd => emdash_ne_zeroZero, ?_, fun dd => rfl⟩
  · intro r hr
    rw [fetch_data_ok_iff] at h
    rw [h.2] at hr
    exact (mem_queryRows.mp hr).1
  · intro vals dd hl
    simp [kpi, hl, fmt]

/-- C9 witness: the fetched row is the table row itself, and a missing
value in the last row renders as the em-dash. -/
theorem C9_null_preservation_witness :
    (∀ r ∈ resU.rows, r ∈ dbU.table) ∧ fmt none 2 = "—" ∧
    kpi [some 1, none] 2 = "—" := by
  have h := C9_null_preservation dbU "BTCUSDT" (some 90) 1000 resU rfl
  exact ⟨h.1, h.2.1 2, h.2.2.2.1 [some 1, none] 2 rfl⟩

/-- C10: the startup catalog is sorted ascending, and the preselected
default pair is `BTCUSDT` when present, otherwise the first — hence
lexicographically least — pair of the non-empty catalog; an empty
catalog yields no default pair and the callback renders the no-pairs
message without fetching. -/
theorem C10_default_pair (db : DB) (ps : List String) (days : Nat) (allData : Bool)
    (now : Int) (h : fetch_pairs db = Except.ok ps) :
    List.Sorted (· ≤ ·) ps ∧
    ("BTCUSDT" ∈ ps → default_pair ps = some "BTCUSDT") ∧
    (ps ≠ [] → "BTCUSDT" ∉ ps →
      ∃ q, default_pair ps = some q ∧ q ∈ ps ∧ ∀ x ∈ ps, q ≤ x) ∧
    (ps = [] → default_pair ps = none ∧
      update db none days allData now = UpdateView.noPairs) := by
  have hc : db.connFails = false := by
    by_contra hcc
    rw [Bool.not_eq_false] at hcc
    simp [fetch_pairs, hcc] at h
  have hfp : fetch_pairs db =
      Except.ok (List.insertionSort (· ≤ ·) (db.table.map (·.pair)).dedup) := by
    unfold fetch_pairs
    rw [hc]
    rfl
  rw [hfp] at h
  have hps : ps = List.insertionSort (· ≤ ·) (db.table.map (·.pair)).dedup :=
    (Except.ok.inj h).symm
  have hsort : List.Sorted (· ≤ ·) ps := by
    rw [hps]
    exact List.sorted_insertionSort _ _
  refine ⟨hsort, fun hb => by simp [default_pair, hb], ?_,
    fun he => ⟨by simp [default_pair, he], rfl⟩⟩
  intro hne hnb
  obtain ⟨q, t, rfl⟩ : ∃ q t, ps = q :: t := by
    cases ps with
    | nil => exact absurd rfl hne
    | cons a b => exact ⟨a, b, rfl⟩
  refine ⟨q, by simp [default_pair, hnb], List.mem_cons_self q t, ?_⟩
  intro x hx
  rcases List.mem_cons.mp hx with rfl | hxt
  · exact le_refl x
  · exact List.rel_of_sorted_cons hsort x hxt

/-- C10 witness: a catalog containing `BTCUSDT` preselects it; a catalog
without it preselects its first (least) pair. -/
theorem C10_default_pair_witness :
    default_pair ["BTCUSDT"] = some "BTCUSDT" ∧
    (∃ q, default_pair ["AAAUSDT"] = some q ∧ q ∈ ["AAAUSDT"] ∧
      ∀ x ∈ ["AAAUSDT"], q ≤ x) := by
  exact ⟨(C10_default_pair dbU ["BTCUSDT"] 90 false 1000 rfl).2.1 (by decide),
    (C10_default_pair dbA ["AAAUSDT"] 90 false 1000 rfl).2.2.1 (by decide) (by decide)⟩

end CryptoDash
